import Mathlib

/-!
Verification development for the provider-cockroachdb reconciliation core.

Shallow embedding of the controller in
`internal/controller/cluster` (the `external` client: Observe / Create /
Update / Delete), the credential resolver (`getPassword`), the connection
detail assembly (`getConnectionDetails`), and the CA certificate fetcher
(`pkg/cockroachca`).  Effects (backend calls, secret reads, the random
password generator) are passed in as explicit outcome values; Go runtime
panics (nil-pointer dereference, out-of-range index) are embedded as a
distinct `fault` result, Go `error` returns as `err`.
-/

namespace CrdbProvider

/-! ## Character classes and UUID validation

`isValidUUID` in the controller calls `uuid.Parse` from github.com/google/uuid
and reports whether it succeeded.  The definitions below mirror that parser:
accepted shapes are the canonical 36-character form, the `urn:uuid:` prefixed
form (case-insensitive fold of the ASCII prefix), the braced form (where the
parser slices `s[1:37]` without inspecting the surrounding characters), and
the 32-character undashed hex form. -/

def isHexDigitChar (c : Char) : Bool :=
  c.isDigit
    || (decide (97 ≤ c.toNat) && decide (c.toNat ≤ 102))
    || (decide (65 ≤ c.toNat) && decide (c.toNat ≤ 70))

def asciiLower (c : Char) : Char :=
  if c.isUpper then Char.ofNat (c.toNat + 32) else c

/-- ASCII-case-insensitive list comparison, as `strings.EqualFold` behaves on
the all-ASCII `urn:uuid:` prefix. -/
def eqFoldList (a b : List Char) : Bool :=
  a.map asciiLower == b.map asciiLower

/-- dash positions of a canonical 36-character UUID. -/
def uuidDashIdx (i : Nat) : Bool :=
  i == 8 || i == 13 || i == 18 || i == 23

/-- checks a 36-character candidate: dashes at 8, 13, 18, 23 and hexadecimal
digits everywhere else, exactly the bytes `uuid.Parse` decodes. -/
def validUUID36 (cs : List Char) : Bool :=
  (List.range 36).all fun i =>
    let c := cs.getD i ' '
    if uuidDashIdx i then c == '-' else isHexDigitChar c

/-- embedding of `isValidUUID` (controller) over `uuid.Parse` (google/uuid):
switch on the length, 36 canonical, 45 urn-prefixed, 38 braced (the slice
`s[1:37]` is taken without checking the braces), 32 undashed hex. -/
def isValidUUID (s : String) : Bool :=
  let cs := s.toList
  if cs.length == 36 then validUUID36 cs
  else if cs.length == 45 then
    eqFoldList (cs.take 9) ("urn:uuid:".toList) && validUUID36 (cs.drop 9)
  else if cs.length == 38 then validUUID36 ((cs.drop 1).take 36)
  else if cs.length == 32 then cs.all isHexDigitChar
  else false

/-! ## Data model -/

/-- `xpv1.SecretKeySelector`: namespace/name of a secret plus a key inside it. -/
structure SecretKeySelector where
  nsName : String
  name : String
  key : String
deriving DecidableEq, Repr

/-- `v1alpha1.Credentials`. -/
structure Credentials where
  username : String
  passwordSecretRef : Option SecretKeySelector
deriving DecidableEq, Repr

/-- `v1alpha1.ServerlessCluster`.  `SpendLimit` is a `*int32` in Go with a
CRD default of 0, so it is always resolved to a value by admission; the
controller dereferences it unconditionally.  We model the resolved value. -/
structure ServerlessCluster where
  regions : List String
  spendLimit : Int
deriving DecidableEq, Repr

/-- `v1alpha1.ClusterParameters` (the `ForProvider` desired state). -/
structure ClusterParameters where
  provider : String
  serverless : ServerlessCluster
  credentials : Credentials
deriving DecidableEq, Repr

/-- `v1alpha1.ClusterObservation` (`Status.AtProvider`). -/
structure ClusterObservation where
  id : String
  state : String
deriving DecidableEq, Repr

/-- conditions the controller sets via `cr.Status.SetConditions`. -/
inductive Condition where
  | unset
  | available
  | creating
  | unavailable
deriving DecidableEq, Repr

/-- observed status of the managed resource: `AtProvider` plus the last
condition written by `SetConditions`. -/
structure ClusterStatus where
  atProvider : ClusterObservation
  condition : Condition
deriving DecidableEq, Repr

/-- the managed resource `v1alpha1.Cluster`: object name, the
`crossplane.io/external-name` annotation, desired spec and status. -/
structure Cluster where
  name : String
  externalName : String
  forProvider : ClusterParameters
  status : ClusterStatus
deriving DecidableEq, Repr

/-- lifecycle states of `cockroachdb.ClusterStateType` in the backend SDK. -/
inductive ClusterStateType where
  | unspecified
  | creating
  | created
  | creationFailed
  | deleted
  | locked
deriving DecidableEq, Repr

/-- string value of each SDK state constant, as stored into
`Status.AtProvider.State`. -/
def stateString : ClusterStateType → String
  | .unspecified => "CLUSTER_STATE_UNSPECIFIED"
  | .creating => "CREATING"
  | .created => "CREATED"
  | .creationFailed => "CREATION_FAILED"
  | .deleted => "DELETED"
  | .locked => "LOCKED"

/-- one region entry of the SDK cluster record; `SqlDns` is the SQL endpoint. -/
structure Region where
  sqlDns : String
deriving DecidableEq, Repr

/-- serverless config echo of the SDK cluster record. -/
structure ServerlessConfig where
  spendLimit : Int
deriving DecidableEq, Repr

/-- `Config` of the SDK cluster record. -/
structure ClusterConfig where
  serverless : ServerlessConfig
deriving DecidableEq, Repr

/-- the SDK `cockroachdb.Cluster` returned by the backend. -/
structure CrdbCluster where
  id : String
  name : String
  state : ClusterStateType
  regions : List Region
  config : ClusterConfig
deriving DecidableEq, Repr

/-! ## Effect outcomes and result types -/

/-- result of a Go function call: a runtime panic (`fault`, e.g. nil-pointer
dereference or out-of-range index), an `error` return carrying the message,
or a normal value. -/
inductive GoResult (α : Type) where
  | fault : GoResult α
  | err : String → GoResult α
  | ok : α → GoResult α
deriving DecidableEq, Repr

/-- the part of `*http.Response` the controller reads. -/
structure HTTPResponse where
  statusCode : Nat
deriving DecidableEq, Repr

/-- outcome of the SDK `GetCluster` call: either a cluster record, or a
non-nil Go error together with the possibly-nil `*http.Response`
(`none` models a nil response handle, as a pure transport failure yields). -/
inductive GetClusterOutcome where
  | success : CrdbCluster → GetClusterOutcome
  | failure : Option HTTPResponse → String → GetClusterOutcome
deriving DecidableEq, Repr

/-- `managed.ExternalObservation`, the fields the controller sets. -/
structure ExternalObservation where
  resourceExists : Bool
  resourceUpToDate : Bool
deriving DecidableEq, Repr

/-! ## Observe -/

/-- `meta.SetExternalName`: writes the external-name annotation. -/
def setExternalName (cr : Cluster) (id : String) : Cluster :=
  { cr with externalName := id }

/-- embedding of `fillAtProvider`: copies id and state string into status. -/
def fillAtProvider (cr : Cluster) (cluster : CrdbCluster) : Cluster :=
  { cr with status := { cr.status with
      atProvider := { id := cluster.id, state := stateString cluster.state } } }

/-- `cr.Status.SetConditions c`. -/
def setCondition (cr : Cluster) (c : Condition) : Cluster :=
  { cr with status := { cr.status with condition := c } }

/-- embedding of `isUpToDate`: compares the desired (dereferenced) spend
limit with the spend limit echoed in the backend cluster config. -/
def isUpToDate (cr : Cluster) (cluster : CrdbCluster) : Bool :=
  cr.forProvider.serverless.spendLimit == cluster.config.serverless.spendLimit

/-- condition chosen by the `switch cluster.State` in Observe for the states
that keep the resource existing (`DELETED` returns early instead). -/
def conditionFor : ClusterStateType → Condition
  | .created => .available
  | .creating => .creating
  | _ => .unavailable

/-- embedding of `external.Observe`.  The backend call is passed in as its
outcome `o`; the function returns the observation (or error/fault) together
with the possibly-mutated managed resource.  The error branch mirrors the Go
code exactly: it reads `res.StatusCode` whenever `err != nil`, which is a
nil-pointer dereference (`fault`) when the response handle is absent. -/
def observe (cr : Cluster) (o : GetClusterOutcome) :
    GoResult (ExternalObservation × Cluster) :=
  if !isValidUUID cr.externalName then
    .ok ({ resourceExists := false, resourceUpToDate := false }, cr)
  else
    match o with
    | .failure res e =>
      match res with
      | none => .fault
      | some r =>
        if r.statusCode == 404 then
          .ok ({ resourceExists := false, resourceUpToDate := false }, cr)
        else
          .err e
    | .success cluster =>
      let cr1 := fillAtProvider cr cluster
      match cluster.state with
      | .deleted =>
        .ok ({ resourceExists := false, resourceUpToDate := false }, cr1)
      | st =>
        let cr2 := setCondition cr1 (conditionFor st)
        .ok ({ resourceExists := true, resourceUpToDate := isUpToDate cr2 cluster }, cr2)

/-! ## Credential resolver (`getPassword`) -/

/-- a Kubernetes secret: its string-keyed data map, modelled as an
association list. -/
structure Secret where
  data : List (String × String)
deriving DecidableEq, Repr

/-- map lookup `secret.Data[key]` with its `ok` flag. -/
def lookupKey (data : List (String × String)) (k : String) : Option String :=
  (data.find? fun p => p.1 == k).map (·.2)

/-- Modelled from the spec: the random password generator
(`password.Generate` of sethvargo/go-password, a dependency whose source is
not in this repository) is called as `Generate(16, 4, 0, false, false)` and,
per its contract, on success returns a string of exactly the requested
length holding exactly the requested number of digits, exactly the requested
number of symbols, and letters (upper or lower case) elsewhere.  This
predicate states that contract for a produced string. -/
def generatedPasswordOK (length numDigits numSymbols : Nat) (s : String) : Bool :=
  s.toList.length == length
    && (s.toList.filter Char.isDigit).length == numDigits
    && (s.toList.filter fun c => !(c.isDigit || c.isUpper || c.isLower)).length == numSymbols

/-- embedding of `getPassword`.  The two effects are passed as outcomes: `gen`
is what `password.Generate(16, 4, 0, false, false)` would return, `kubeGet`
is the secret store read keyed by the selector.  With no selector the
generator result is used (errors wrapped with the generating message); with
a selector the secret is fetched, the lookup error is returned as-is, a
missing key yields the distinct quoted not-found error, and a present key
yields exactly the stored value. -/
def getPassword (gen : Except String String)
    (kubeGet : SecretKeySelector → Except String Secret)
    (sel : Option SecretKeySelector) : Except String String :=
  match sel with
  | none =>
    match gen with
    | .error e => .error ("error generating random password: " ++ e)
    | .ok p => .ok p
  | some sk =>
    match kubeGet sk with
    | .error e => .error e
    | .ok secret =>
      match lookupKey secret.data sk.key with
      | none => .error ("secret key \"" ++ sk.key ++ "\" not found")
      | some v => .ok v

/-! ## Connection details and Create -/

/-- embedding of `getConnectionDetails`: takes the first region's SQL DNS
(`cluster.Regions[0].SqlDns`, a panic on an empty slice, hence the `Option`),
and assembles the DSN with the fixed format string
`postgresql://%s:%s@%s:26257/defaultdb?sslmode=verify-full&options=--cluster%s%s`
applied to user, password, host, the literal `%3D`, and the cluster name.
The connection-details map has exactly the keys `ca.crt` and `dsn`. -/
def getConnectionDetails (cr : Cluster) (cluster : CrdbCluster)
    (ca pwd : String) : Option (List (String × String)) :=
  match cluster.regions with
  | [] => none
  | r :: _ =>
    let host := r.sqlDns
    let user := cr.forProvider.credentials.username
    let dsn := "postgresql://" ++ user ++ ":" ++ pwd ++ "@" ++ host
      ++ ":26257/defaultdb?sslmode=verify-full&options=--cluster" ++ "%3D"
      ++ cluster.name
    some [("ca.crt", ca), ("dsn", dsn)]

/-- outcomes of the effectful calls Create makes, each performed at most
once, in program order: the backend `CreateCluster` call, the password
generator, the secret store read, the backend `CreateSQLUser` call, and the
CA certificate fetch. -/
structure CreateDeps where
  createCluster : Except String CrdbCluster
  gen : Except String String
  kubeGet : SecretKeySelector → Except String Secret
  createSQLUser : Except String Unit
  caCert : Except String String

/-- embedding of `external.Create`: submit the create request; on success
immediately `meta.SetExternalName(cr, cluster.Id)`; then resolve the
password, create the SQL user, fetch the CA certificate, and assemble the
connection details.  Every later failure returns the error with the
external name already set on the resource; nothing resets it. -/
def create (cr : Cluster) (deps : CreateDeps) :
    GoResult (List (String × String)) × Cluster :=
  match deps.createCluster with
  | .error e => (.err e, cr)
  | .ok cluster =>
    let cr := setExternalName cr cluster.id
    match getPassword deps.gen deps.kubeGet cr.forProvider.credentials.passwordSecretRef with
    | .error e => (.err e, cr)
    | .ok pwd =>
      match deps.createSQLUser with
      | .error e => (.err e, cr)
      | .ok _ =>
        match deps.caCert with
        | .error e => (.err e, cr)
        | .ok ca =>
          match getConnectionDetails cr cluster ca pwd with
          | none => (.fault, cr)
          | some details => (.ok details, cr)

/-! ## Certificate fetcher (`pkg/cockroachca`) -/

/-- identity of an `*http.Client` handle; `0` stands for
`http.DefaultClient`, other numbers for injected clients. -/
def defaultHTTPClient : Nat := 0

/-- `cockroachca.CAClient`: configured base URL and HTTP client handle. -/
structure CAClient where
  baseURL : String
  httpClient : Nat
deriving DecidableEq, Repr

/-- the default base URL constant `defaultCAURL`. -/
def defaultCAURL : String := "https://cockroachlabs.cloud/"

/-- the functional options `WithBaseURL` and `WithHTTPClient`; each sets its
field (`url.Parse` of the well-formed URLs used here succeeds). -/
inductive CAOption where
  | withBaseURL : String → CAOption
  | withHTTPClient : Nat → CAOption
deriving DecidableEq, Repr

def applyCAOption (c : CAClient) : CAOption → CAClient
  | .withBaseURL u => { c with baseURL := u }
  | .withHTTPClient hc => { c with httpClient := hc }

/-- embedding of `NewCAClient`: start from the defaults, then apply the
options in order. -/
def newCAClient (opts : List CAOption) : CAClient :=
  opts.foldl applyCAOption { baseURL := defaultCAURL, httpClient := defaultHTTPClient }

/-- URL reference with a scheme, i.e. absolute in the sense of Go's
`(*url.URL).IsAbs`: a `:` appears before any `/`, `?` or `#`. -/
def isAbsURL (s : String) : Bool :=
  (s.toList.takeWhile fun c => c != '/' && c != '?' && c != '#').contains ':'

/-- Go's `(*url.URL).Parse` resolves the reference against the receiver
(`ResolveReference`): an absolute reference replaces the base entirely.  The
only reference the fetcher ever builds is absolute, so relative resolution
(modelled here as plain concatenation) is never exercised. -/
def resolveURL (base ref : String) : String :=
  if isAbsURL ref then ref else base ++ ref

/-- the HTTP GET request the fetcher issues: which client handle performs it
and against which URL. -/
structure HTTPRequest where
  clientUsed : Nat
  url : String
deriving DecidableEq, Repr

/-- embedding of the request construction inside `CAClient.ClusterCACert`:
the URL is `c.baseURL.Parse(fmt.Sprintf("https://cockroachlabs.cloud/clusters/%s/cert", cluster.Id))`
and the GET is issued by the package-level `http.Get`, which always uses
`http.DefaultClient` (not `c.httpClient`). -/
def caCertRequest (c : CAClient) (clusterId : String) : HTTPRequest :=
  { clientUsed := defaultHTTPClient
    url := resolveURL c.baseURL
      ("https://cockroachlabs.cloud/clusters/" ++ clusterId ++ "/cert") }

/-- outcome of performing the GET: transport failure, or a status code with
a body. -/
inductive HTTPOutcome where
  | transportErr : String → HTTPOutcome
  | response : Nat → String → HTTPOutcome
deriving DecidableEq, Repr

/-- embedding of the rest of `ClusterCACert`: transport errors and non-200
statuses fail (the status code included in the message), a 200 response
yields the raw body bytes. -/
def clusterCACert (c : CAClient) (clusterId : String)
    (transport : HTTPRequest → HTTPOutcome) : Except String String :=
  match transport (caCertRequest c clusterId) with
  | .transportErr e => .error ("error requesting CA cert: " ++ e)
  | .response code body =>
    if code != 200 then
      .error ("error requesting CA cert: status code " ++ toString code)
    else
      .ok body

/-! ## Sample records used by witnesses and concrete evaluations -/

/-- a desired-state record shared by sample resources. -/
def sampleParams : ClusterParameters :=
  { provider := "GCP"
    serverless := { regions := ["us-central1"], spendLimit := 5 }
    credentials := { username := "alice", passwordSecretRef := none } }

/-- a managed resource with a well-formed UUID external name. -/
def sampleCR : Cluster :=
  { name := "prod1"
    externalName := "123e4567-e89b-12d3-a456-426614174000"
    forProvider := sampleParams
    status := { atProvider := { id := "", state := "" }, condition := .unset } }

/-- a managed resource whose external name is not a well-formed UUID. -/
def sampleCRBad : Cluster :=
  { sampleCR with externalName := "not-a-uuid" }

/-- a managed resource with a different well-formed UUID external name. -/
def sampleCR10 : Cluster :=
  { sampleCR with externalName := "00112233-4455-6677-8899-aabbccddeeff" }

/-- a backend cluster record in state CREATED. -/
def sampleCluster : CrdbCluster :=
  { id := "123e4567-e89b-12d3-a456-426614174000"
    name := "prod1"
    state := .created
    regions := [{ sqlDns := "h.example.com" }]
    config := { serverless := { spendLimit := 5 } } }

/-! ## Observe theorems -/

/-- C2: for every managed resource whose external-name annotation is empty
or not a well-formed UUID, Observe returns exists=false, and the result is
the same for every backend outcome — no get-cluster call is observable. -/
theorem observe_no_identifier (cr : Cluster)
    (h : cr.externalName = "" ∨ isValidUUID cr.externalName = false) :
    ∀ o : GetClusterOutcome,
      observe cr o = .ok ({ resourceExists := false, resourceUpToDate := false }, cr) := by
  have hv : isValidUUID cr.externalName = false := by
    rcases h with h | h
    · rw [h]; decide
    · exact h
  intro o
  simp [observe, hv]

/-- C2 witness: at a concrete resource with a malformed identifier, Observe
reports non-existence for two unrelated backend outcomes. -/
theorem observe_no_identifier_witness :
    observe sampleCRBad (.failure none "boom")
      = .ok ({ resourceExists := false, resourceUpToDate := false }, sampleCRBad)
    ∧ observe sampleCRBad (.success sampleCluster)
      = .ok ({ resourceExists := false, resourceUpToDate := false }, sampleCRBad) :=
  ⟨observe_no_identifier sampleCRBad (Or.inr (by decide)) _,
   observe_no_identifier sampleCRBad (Or.inr (by decide)) _⟩

/-- C3: on a successful lookup of a non-deleted cluster, Observe reports
upToDate exactly when the desired spend limit equals the cluster's reported
serverless spend limit; and the comparison depends on no other desired or
observed field. -/
theorem observe_upToDate_spendLimit_only (cr cr' : Cluster)
    (cluster cluster' : CrdbCluster)
    (h1 : isValidUUID cr.externalName = true) (hst : cluster.state ≠ .deleted) :
    (observe cr (.success cluster) =
      .ok ({ resourceExists := true, resourceUpToDate := isUpToDate cr cluster },
           setCondition (fillAtProvider cr cluster) (conditionFor cluster.state)))
  ∧ (isUpToDate cr cluster = true ↔
      cr.forProvider.serverless.spendLimit = cluster.config.serverless.spendLimit)
  ∧ (cr.forProvider.serverless.spendLimit = cr'.forProvider.serverless.spendLimit →
      cluster.config.serverless.spendLimit = cluster'.config.serverless.spendLimit →
      isUpToDate cr cluster = isUpToDate cr' cluster') := by
  refine ⟨?_, ?_, ?_⟩
  · cases hs : cluster.state <;>
      simp_all [observe, h1, isUpToDate, fillAtProvider, setCondition, conditionFor]
  · simp [isUpToDate]
  · intro ha hb
    simp [isUpToDate, ha, hb]

/-- C3 witness: concrete resource and cluster with equal spend limits. -/
theorem observe_upToDate_spendLimit_only_witness :
    observe sampleCR (.success sampleCluster) =
      .ok ({ resourceExists := true, resourceUpToDate := true },
           setCondition (fillAtProvider sampleCR sampleCluster) .available)
    ∧ (isUpToDate sampleCR sampleCluster = true ↔
        sampleCR.forProvider.serverless.spendLimit
          = sampleCluster.config.serverless.spendLimit) := by
  have h := observe_upToDate_spendLimit_only sampleCR sampleCR sampleCluster sampleCluster
    (by decide) (by decide)
  exact ⟨by rw [h.1]; decide, h.2.1⟩

/-- C4 counterexample: a get-cluster failure that carries no HTTP response
is not returned to the caller as an error — Observe faults (nil-pointer
dereference of the response handle) instead. -/
theorem observe_transport_error_counterexample :
    observe sampleCR (.failure none "connection refused") = .fault
    ∧ (GoResult.fault : GoResult (ExternalObservation × Cluster))
        ≠ .err "connection refused" := by
  constructor
  · simp [observe, show isValidUUID sampleCR.externalName = true from by decide]
  · decide

/-- C4 (amended): when the get-cluster failure carries an HTTP response, a
404 status yields exists=false with no error, and any other status makes
Observe return the backend error to the caller. -/
theorem observe_get_error_with_response (cr : Cluster) (r : HTTPResponse)
    (e : String) (h1 : isValidUUID cr.externalName = true) :
    (r.statusCode = 404 →
      observe cr (.failure (some r) e)
        = .ok ({ resourceExists := false, resourceUpToDate := false }, cr))
  ∧ (r.statusCode ≠ 404 → observe cr (.failure (some r) e) = .err e) := by
  constructor
  · intro h404
    simp [observe, h1, h404]
  · intro hne
    simp [observe, h1, hne]

/-- C4 witness: concrete 404 and 500 failures with a response present. -/
theorem observe_get_error_with_response_witness :
    observe sampleCR (.failure (some { statusCode := 404 }) "not found")
      = .ok ({ resourceExists := false, resourceUpToDate := false }, sampleCR)
    ∧ observe sampleCR (.failure (some { statusCode := 500 }) "server error")
      = .err "server error" :=
  ⟨(observe_get_error_with_response sampleCR { statusCode := 404 } "not found"
      (by decide)).1 rfl,
   (observe_get_error_with_response sampleCR { statusCode := 500 } "server error"
      (by decide)).2 (by decide)⟩

/-- C5: on a successful lookup, state DELETED yields exists=false even
though the lookup succeeded; CREATED, CREATING, and any other state yield
exists=true with condition Available, Creating, or Unavailable. -/
theorem observe_state_mapping (cr : Cluster) (cluster : CrdbCluster)
    (h1 : isValidUUID cr.externalName = true) :
    (cluster.state = .deleted →
      observe cr (.success cluster)
        = .ok ({ resourceExists := false, resourceUpToDate := false },
               fillAtProvider cr cluster))
  ∧ (cluster.state = .created →
      observe cr (.success cluster)
        = .ok ({ resourceExists := true, resourceUpToDate := isUpToDate cr cluster },
               setCondition (fillAtProvider cr cluster) .available))
  ∧ (cluster.state = .creating →
      observe cr (.success cluster)
        = .ok ({ resourceExists := true, resourceUpToDate := isUpToDate cr cluster },
               setCondition (fillAtProvider cr cluster) .creating))
  ∧ (cluster.state ≠ .deleted → cluster.state ≠ .created →
      cluster.state ≠ .creating →
      observe cr (.success cluster)
        = .ok ({ resourceExists := true, resourceUpToDate := isUpToDate cr cluster },
               setCondition (fillAtProvider cr cluster) .unavailable)) := by
  refine ⟨?_, ?_, ?_, ?_⟩ <;> intro h <;>
    cases hs : cluster.state <;>
      simp_all [observe, isUpToDate, fillAtProvider, setCondition, conditionFor]

/-- C5 witness: a DELETED cluster observed through a concrete resource. -/
theorem observe_state_mapping_witness :
    observe sampleCR (.success { sampleCluster with state := .deleted })
      = .ok ({ resourceExists := false, resourceUpToDate := false },
             fillAtProvider sampleCR { sampleCluster with state := .deleted })
    ∧ observe sampleCR (.success { sampleCluster with state := .locked })
      = .ok ({ resourceExists := true, resourceUpToDate := true },
             setCondition (fillAtProvider sampleCR { sampleCluster with state := .locked })
               .unavailable) := by
  have h1 := observe_state_mapping sampleCR { sampleCluster with state := .deleted } (by decide)
  have h2 := observe_state_mapping sampleCR { sampleCluster with state := .locked } (by decide)
  refine ⟨h1.1 rfl, ?_⟩
  have := h2.2.2.2 (by decide) (by decide) (by decide)
  rw [this]; decide

/-- C10: the error branch of Observe reads the response's status code
unconditionally, so a get-cluster failure with an absent response handle
makes Observe fault rather than return an observation or an error. -/
theorem observe_faults_on_nil_response :
    observe sampleCR10 (.failure none "dial tcp: i/o timeout") = .fault := by
  simp [observe, show isValidUUID sampleCR10.externalName = true from by decide]

/-! ## Create theorems -/

/-- C1: once the backend create-cluster call succeeds, the returned
identifier is persisted onto the external-name annotation in every
continuation of Create — in particular it is already set when the
password-resolution, create-SQL-user and CA-certificate steps run — and
each failure of those later steps makes Create return that error while the
annotation keeps the identifier. -/
theorem create_persists_external_name (cr : Cluster) (deps : CreateDeps)
    (cluster : CrdbCluster) (hc : deps.createCluster = .ok cluster) :
    ((create cr deps).2.externalName = cluster.id)
  ∧ (∀ e, getPassword deps.gen deps.kubeGet cr.forProvider.credentials.passwordSecretRef
        = .error e → (create cr deps).1 = .err e)
  ∧ (∀ p e, getPassword deps.gen deps.kubeGet cr.forProvider.credentials.passwordSecretRef
        = .ok p → deps.createSQLUser = .error e → (create cr deps).1 = .err e)
  ∧ (∀ p e, getPassword deps.gen deps.kubeGet cr.forProvider.credentials.passwordSecretRef
        = .ok p → deps.createSQLUser = .ok () → deps.caCert = .error e →
        (create cr deps).1 = .err e) := by
  refine ⟨?_, ?_, ?_, ?_⟩
  · cases hgp : getPassword deps.gen deps.kubeGet
        cr.forProvider.credentials.passwordSecretRef with
    | error e => simp [create, hc, setExternalName, hgp]
    | ok p =>
      cases hs : deps.createSQLUser with
      | error e => simp [create, hc, setExternalName, hgp, hs]
      | ok u =>
        cases hca : deps.caCert with
        | error e => simp [create, hc, setExternalName, hgp, hs, hca]
        | ok ca =>
          cases hd : getConnectionDetails { cr with externalName := cluster.id } cluster ca p with
          | none => simp [create, hc, setExternalName, hgp, hs, hca, hd]
          | some d => simp [create, hc, setExternalName, hgp, hs, hca, hd]
  · intro e he
    simp [create, hc, setExternalName, he]
  · intro p e hp hs
    simp [create, hc, setExternalName, hp, hs]
  · intro p e hp hs hca
    simp [create, hc, setExternalName, hp, hs, hca]

/-- a resource requesting a generated password, used for the C1 witness. -/
def c1CR : Cluster :=
  { name := "newdb"
    externalName := ""
    forProvider := sampleParams
    status := { atProvider := { id := "", state := "" }, condition := .unset } }

/-- Create-step outcomes where cluster creation succeeds and the password
generator then fails, used for the C1 witness. -/
def c1Deps : CreateDeps :=
  { createCluster := .ok { sampleCluster with id := "deadbeef-0000-4000-8000-000000000001" }
    gen := .error "rng broken"
    kubeGet := fun _ => .error "unused"
    createSQLUser := .ok ()
    caCert := .ok "CERT" }

/-- C1 witness: after a successful create-cluster call whose later password
step fails, Create returns the error and the identifier stays on the
annotation. -/
theorem create_persists_external_name_witness :
    (create c1CR c1Deps).2.externalName = "deadbeef-0000-4000-8000-000000000001"
    ∧ (create c1CR c1Deps).1 = .err "error generating random password: rng broken" := by
  have h := create_persists_external_name c1CR c1Deps
    { sampleCluster with id := "deadbeef-0000-4000-8000-000000000001" } rfl
  exact ⟨h.1, h.2.1 _ rfl⟩

/-- the spec's concrete DSN scenario: one region at h.example.com, username
alice, password p@ss, cluster name prod1. -/
def c6Cluster : CrdbCluster :=
  { id := "c6c6c6c6-0000-4000-8000-000000000006"
    name := "prod1"
    state := .creating
    regions := [{ sqlDns := "h.example.com" }]
    config := { serverless := { spendLimit := 5 } } }

/-- Create-step outcomes for the DSN scenario: everything succeeds and the
generated password is p@ss. -/
def c6Deps : CreateDeps :=
  { createCluster := .ok c6Cluster
    gen := .ok "p@ss"
    kubeGet := fun _ => .error "unused"
    createSQLUser := .ok ()
    caCert := .ok "CERTBYTES" }

/-- C6: for the spec's concrete scenario, Create returns connection details
with exactly two entries, the CA certificate bytes under `ca.crt` and the
DSN bytes under `dsn`, and the DSN is exactly the expected string. -/
theorem create_connection_details_dsn :
    (create sampleCR c6Deps).1 =
      .ok [("ca.crt", "CERTBYTES"),
           ("dsn", "postgresql://alice:p@ss@h.example.com:26257/defaultdb?sslmode=verify-full&options=--cluster%3Dprod1")] := by
  decide

/-! ## Certificate fetcher theorems -/

/-- a CA client constructed with a non-default base URL and HTTP client. -/
def c7Client : CAClient :=
  newCAClient [.withBaseURL "http://localhost:9999/", .withHTTPClient 7]

/-- C7: the constructor does record the supplied base URL and HTTP client,
but the certificate request ignores both — it is issued through the default
HTTP client (package-level `http.Get`) against the hard-coded absolute URL,
because the absolute reference replaces the configured base entirely. -/
theorem caCert_request_ignores_configuration :
    c7Client.baseURL = "http://localhost:9999/"
    ∧ c7Client.httpClient = 7
    ∧ caCertRequest c7Client "abc" =
        { clientUsed := defaultHTTPClient
          url := "https://cockroachlabs.cloud/clusters/abc/cert" }
    ∧ defaultHTTPClient ≠ 7 := by
  decide

/-! ## Credential resolver theorems -/

/-- C8: with no password secret reference, the resolver returns the
generator's password — under the generator's contract a 16-character string
of letters and digits only, containing at least 4 digits — and it fails
exactly when the generator errors, wrapping that error. -/
theorem getPassword_generated (gen : Except String String)
    (kubeGet : SecretKeySelector → Except String Secret)
    (hgen : ∀ s, gen = .ok s → generatedPasswordOK 16 4 0 s = true) :
    (∀ s, gen = .ok s →
      getPassword gen kubeGet none = .ok s
      ∧ s.toList.length = 16
      ∧ 4 ≤ (s.toList.filter Char.isDigit).length
      ∧ ∀ c ∈ s.toList, c.isDigit || c.isUpper || c.isLower)
  ∧ (∀ e, gen = .error e →
      getPassword gen kubeGet none
        = .error ("error generating random password: " ++ e)) := by
  constructor
  · intro s hs
    have hok := hgen s hs
    simp only [generatedPasswordOK, Bool.and_eq_true, beq_iff_eq] at hok
    obtain ⟨⟨hlen, hdig⟩, hsym⟩ := hok
    refine ⟨by simp [getPassword, hs], hlen, by omega, ?_⟩
    intro c hc
    have hnil : s.toList.filter (fun c => !(c.isDigit || c.isUpper || c.isLower)) = [] :=
      List.length_eq_zero.mp hsym
    have hnot := List.filter_eq_nil_iff.mp hnil c hc
    cases hb : (c.isDigit || c.isUpper || c.isLower) with
    | true => rfl
    | false => exact absurd (by simp [hb]) hnot
  · intro e he
    simp [getPassword, he]

/-- C8 witness: a contract-conforming generator output is passed through
unchanged, and a generator error is wrapped. -/
theorem getPassword_generated_witness :
    getPassword (.ok "AbCdEfGhIjKl0123") (fun _ => .error "unused") none
      = .ok "AbCdEfGhIjKl0123"
    ∧ getPassword (.error "entropy exhausted") (fun _ => .error "unused") none
      = .error "error generating random password: entropy exhausted" := by
  have h1 := (getPassword_generated (.ok "AbCdEfGhIjKl0123") (fun _ => .error "unused")
    (by intro s hs; cases hs; decide)).1 "AbCdEfGhIjKl0123" rfl
  have h2 := (getPassword_generated (.error "entropy exhausted") (fun _ => .error "unused")
    (by intro s hs; cases hs)).2 "entropy exhausted" rfl
  exact ⟨h1.1, h2⟩

/-- C9: with a password secret reference, the resolver returns exactly the
byte value stored at the referenced key; a missing key yields the distinct
quoted not-found error, and a failed secret read yields the lookup error
unchanged. -/
theorem getPassword_secret_ref (gen : Except String String)
    (kubeGet : SecretKeySelector → Except String Secret) (sk : SecretKeySelector) :
    (∀ secret v, kubeGet sk = .ok secret → lookupKey secret.data sk.key = some v →
      getPassword gen kubeGet (some sk) = .ok v)
  ∧ (∀ secret, kubeGet sk = .ok secret → lookupKey secret.data sk.key = none →
      getPassword gen kubeGet (some sk)
        = .error ("secret key \"" ++ sk.key ++ "\" not found"))
  ∧ (∀ e, kubeGet sk = .error e → getPassword gen kubeGet (some sk) = .error e) := by
  refine ⟨?_, ?_, ?_⟩
  · intro secret v hget hkey
    simp [getPassword, hget, hkey]
  · intro secret hget hkey
    simp [getPassword, hget, hkey]
  · intro e hget
    simp [getPassword, hget]

/-- the selector used by the C9 witness. -/
def wSel : SecretKeySelector := { nsName := "db", name := "creds", key := "pwd" }

/-- C9 witness: the three outcomes at concrete secret stores — key present,
key absent, and secret unreadable. -/
theorem getPassword_secret_ref_witness :
    getPassword (.error "unused") (fun _ => .ok { data := [("pwd", "s3cret")] }) (some wSel)
      = .ok "s3cret"
    ∧ getPassword (.error "unused") (fun _ => .ok { data := [("other", "x")] }) (some wSel)
      = .error "secret key \"pwd\" not found"
    ∧ getPassword (.error "unused") (fun _ => .error "cannot reach api") (some wSel)
      = .error "cannot reach api" := by
  refine ⟨?_, ?_, ?_⟩
  · exact (getPassword_secret_ref (.error "unused")
      (fun _ => .ok { data := [("pwd", "s3cret")] }) wSel).1 _ "s3cret" rfl (by decide)
  · have := (getPassword_secret_ref (.error "unused")
      (fun _ => .ok { data := [("other", "x")] }) wSel).2.1 _ rfl (by decide)
    simpa using this
  · exact (getPassword_secret_ref (.error "unused")
      (fun _ => .error "cannot reach api") wSel).2.2 _ rfl

end CrdbProvider
